import Mathlib

/-!
Verification of the modelbench/modelgauge slice: the standards store
(`src/modelbench/standards.py`), the external-data fetchers
(`src/modelgauge/external_data.py`), and the Google / HuggingFace SUT adapters
(`plugins/google/modelgauge/suts/google_genai_client.py`,
`plugins/huggingface/modelgauge/suts/huggingface_api.py`).

Python floats are modelled as rationals, dictionaries as association lists,
exceptions as `Except` with a `PyErr` error type, and effectful network / file
operations as explicit environment parameters (the outcome of the i-th attempt
of an effect is a function of `i`).
-/

namespace Modelbench

/-- The Python exceptions raised by the modelled code. -/
inductive PyErr where
  | assertionError (msg : String)
  | valueError (msg : String)
  | keyError (key : String)
  | indexError (msg : String)
  | typeError (msg : String)
  | missingSecretValues (descriptions : List String)
  | runtimeError (msg : String)
  | httpError (status : Nat)
  | fileNotFoundError (path : String)
deriving DecidableEq, Repr

/-- Python's `str.lower()` on ASCII text: lowercase every character. -/
def py_lower (s : String) : String := ⟨s.data.map Char.toLower⟩

/-- Holds when the first list is a leading segment of the second: `charsStartWith n h`. -/
def charsStartWith : List Char → List Char → Bool
  | [], _ => true
  | _ :: _, [] => false
  | c :: cs, d :: ds => c = d && charsStartWith cs ds

/-- Holds when the first list occurs contiguously inside the second: `charsContain n h`. -/
def charsContain (needle : List Char) : List Char → Bool
  | [] => charsStartWith needle []
  | c :: rest => charsStartWith needle (c :: rest) || charsContain needle rest

/-- Python's `needle in hay` substring test on strings. -/
def str_contains (hay needle : String) : Bool :=
  charsContain needle.data hay.data

/-! ## Standards store (`src/modelbench/standards.py`) -/

/-- Modelled from the spec: the supported-locale set of `modelgauge.locales`
(the module is not under `src/`); the spec names `en_US` as a supported locale
and treats unknown locales as configuration errors.  Locales are stored in
lowercase. -/
def LOCALES : List String := ["en_us"]

/-- Modelled from the spec: `validate_locale` of `modelgauge.locales` (not under
`src/`) rejects a locale outside the supported set as a configuration error. -/
def validate_locale (locale : String) : Except PyErr Unit :=
  if locale ∈ LOCALES then .ok ()
  else .error (.valueError ("Invalid locale: " ++ locale))

/-- The `standards["reference_standards"]` mapping held by `Standards.data`:
hazard-identifier keys to calibrated reference values (floats modelled as
rationals). -/
structure Standards where
  reference_standards : List (String × ℚ)
deriving DecidableEq

/-- Embeds `Standards.reference_standard_for`: raises
`ValueError("No standard yet for {name}. Run \x60modelbench calibrate --update\x60
to add one.")` when `name` is not a key, otherwise returns the stored value. -/
def Standards.reference_standard_for (s : Standards) (name : String) : Except PyErr ℚ :=
  match s.reference_standards.lookup name with
  | none => .error (.valueError
      ("No standard yet for " ++ name ++ ". Run \x60modelbench calibrate --update\x60 to add one."))
  | some v => .ok v

/-- Embeds `Standards.average_standard_across_references`: asserts `version == "1.0"`,
rejects an empty locale, lowercases the locale, validates it, filters the
reference values whose key contains the (lowercased) locale as a substring,
asserts the filtered list is non-empty and returns its `fmean`. -/
def Standards.average_standard_across_references
    (s : Standards) (locale : String) (version : String) : Except PyErr ℚ :=
  if version ≠ "1.0" then
    .error (.assertionError "Only version 1.0 is supported.")
  else if locale = "" then
    .error (.valueError "Locale is required for v1.0 scoring.")
  else
    let loc := py_lower locale
    match validate_locale loc with
    | .error e => .error e
    | .ok _ =>
        let values := (s.reference_standards.filter fun kv => str_contains kv.1 loc).map Prod.snd
        if values.isEmpty then .error (.assertionError "No reference values found")
        else .ok (values.sum / (values.length : ℚ))

/-- The reference values whose key contains the lowercased locale as an exact
(case-sensitive) substring: the filtering the code actually performs. -/
def matchedValues (s : Standards) (locale : String) : List ℚ :=
  ((s.reference_standards.filter fun kv => str_contains kv.1 (py_lower locale)).map Prod.snd)

/-- The matching rule as the claim words it: the key contains the locale,
matching case-insensitively (both sides lowercased). -/
def ci_key_matches (locale key : String) : Bool :=
  str_contains (py_lower key) (py_lower locale)

/-- The mean the claim says the function returns: over the case-insensitively
matching reference values. -/
def claimed_locale_mean (s : Standards) (locale : String) : ℚ :=
  let values := (s.reference_standards.filter fun kv => ci_key_matches locale kv.1).map Prod.snd
  values.sum / (values.length : ℚ)

/-- The reference standards of the spec's scenario, with its mixed-case keys. -/
def scenarioStandards : Standards :=
  ⟨[("dfm_en_US_practice", 4/5), ("dfm_en_US_official", 3/5)]⟩

/-- The same reference standards with lowercase keys, as the code's own
standards file stores them. -/
def calibratedStandards : Standards :=
  ⟨[("dfm_en_us_practice", 4/5), ("dfm_en_us_official", 3/5)]⟩

/-- Classifies results that raise a Python `ValueError`. -/
def raisesValueError : Except PyErr ℚ → Bool
  | .error (.valueError _) => true
  | _ => false

/-- Branch-by-branch characterization of
`Standards.average_standard_across_references`, used by several proofs. -/
theorem avg_characterization (s : Standards) (locale version : String) :
    Standards.average_standard_across_references s locale version =
      if version ≠ "1.0" then .error (.assertionError "Only version 1.0 is supported.")
      else if locale = "" then .error (.valueError "Locale is required for v1.0 scoring.")
      else if py_lower locale ∈ LOCALES then
        (if (matchedValues s locale).isEmpty then
          .error (.assertionError "No reference values found")
         else .ok ((matchedValues s locale).sum / ((matchedValues s locale).length : ℚ)))
      else .error (.valueError ("Invalid locale: " ++ py_lower locale)) := by
  unfold Standards.average_standard_across_references validate_locale matchedValues
  by_cases h1 : version = "1.0"
  · by_cases h2 : locale = ""
    · simp [h1, h2]
    · by_cases h3 : py_lower locale ∈ LOCALES <;> simp [h1, h2, h3]
  · simp [h1]

theorem charsStartWith_self_append (n t : List Char) : charsStartWith n (n ++ t) = true := by
  induction n with
  | nil => rfl
  | cons c cs ih => simp [charsStartWith, ih]

theorem charsContain_append_left (n s rest : List Char) (h : charsContain n rest = true) :
    charsContain n (s ++ rest) = true := by
  induction s with
  | nil => simpa using h
  | cons c cs ih => simp [charsContain, ih]

theorem charsContain_self_append (n t : List Char) : charsContain n (n ++ t) = true := by
  cases n with
  | nil => cases t <;> simp [charsContain, charsStartWith]
  | cons c cs =>
      have := charsStartWith_self_append (c :: cs) t
      simp [charsContain]
      left
      simpa using this

/-- C3 (confirmed): `reference_standard_for(name)` returns the stored value when
`name` is a key of `reference_standards`; when `name` is absent it raises a
`ValueError` whose message names the missing hazard and instructs the operator
to recalibrate (it mentions `modelbench calibrate --update`); it raises if and
only if `name` is absent. -/
theorem reference_standard_for_spec (s : Standards) (name : String) :
    (∀ v, s.reference_standards.lookup name = some v →
        Standards.reference_standard_for s name = .ok v)
  ∧ (s.reference_standards.lookup name = none →
      ∃ msg, Standards.reference_standard_for s name = .error (.valueError msg)
        ∧ str_contains msg "calibrate" = true
        ∧ str_contains msg name = true)
  ∧ ((∃ e, Standards.reference_standard_for s name = .error e)
        ↔ s.reference_standards.lookup name = none) := by
  refine ⟨?_, ?_, ?_⟩
  · intro v h
    simp [Standards.reference_standard_for, h]
  · intro h
    refine ⟨"No standard yet for " ++ name ++
        ". Run \x60modelbench calibrate --update\x60 to add one.", ?_, ?_, ?_⟩
    · simp [Standards.reference_standard_for, h]
    · show charsContain _ _ = true
      simp only [String.data_append, List.append_assoc]
      apply charsContain_append_left
      apply charsContain_append_left
      decide
    · show charsContain _ _ = true
      simp only [String.data_append, List.append_assoc]
      apply charsContain_append_left
      exact charsContain_self_append _ _
  · constructor
    · rintro ⟨e, he⟩
      cases h : s.reference_standards.lookup name with
      | none => rfl
      | some v => simp [Standards.reference_standard_for, h] at he
    · intro h
      exact ⟨.valueError ("No standard yet for " ++ name ++
          ". Run \x60modelbench calibrate --update\x60 to add one."),
        by simp [Standards.reference_standard_for, h]⟩

theorem reference_standard_for_spec_witness :
    Standards.reference_standard_for calibratedStandards "dfm_en_us_practice" = .ok (4/5)
  ∧ ∃ msg, Standards.reference_standard_for calibratedStandards "missing_hazard"
      = .error (.valueError msg) ∧ str_contains msg "calibrate" = true := by
  refine ⟨(reference_standard_for_spec calibratedStandards "dfm_en_us_practice").1 (4/5) rfl, ?_⟩
  obtain ⟨msg, h1, h2, _⟩ :=
    (reference_standard_for_spec calibratedStandards "missing_hazard").2.1 rfl
  exact ⟨msg, h1, h2⟩

/-- C1 (amended): `average_standard_across_references(locale, version)` fails for
every `version` other than `"1.0"`; fails for the empty locale; and otherwise,
for a supported locale, it averages exactly those reference values whose key
contains the lowercased locale as an exact, case-sensitive substring (the keys
are not lowercased), failing when no key matches. -/
theorem average_standard_across_references_spec (s : Standards) (locale version : String) :
    (version ≠ "1.0" →
      Standards.average_standard_across_references s locale version
        = .error (.assertionError "Only version 1.0 is supported."))
  ∧ (Standards.average_standard_across_references s "" "1.0"
        = .error (.valueError "Locale is required for v1.0 scoring."))
  ∧ (locale ≠ "" → py_lower locale ∈ LOCALES →
      (matchedValues s locale = [] →
        Standards.average_standard_across_references s locale "1.0"
          = .error (.assertionError "No reference values found"))
      ∧ (matchedValues s locale ≠ [] →
        Standards.average_standard_across_references s locale "1.0"
          = .ok ((matchedValues s locale).sum / ((matchedValues s locale).length : ℚ)))) := by
  refine ⟨fun hv => ?_, ?_, fun hl hmem => ⟨fun hempty => ?_, fun hne => ?_⟩⟩
  · rw [avg_characterization]
    simp [hv]
  · rw [avg_characterization]
    simp
  · rw [avg_characterization]
    simp [hl, hmem, hempty]
  · rw [avg_characterization]
    simp [hl, hmem, List.isEmpty_iff, hne]

theorem average_standard_spec_witness :
    Standards.average_standard_across_references calibratedStandards "en_US" "1.0"
      = .ok ((matchedValues calibratedStandards "en_US").sum
          / ((matchedValues calibratedStandards "en_US").length : ℚ))
  ∧ Standards.average_standard_across_references calibratedStandards "fr_FR" "2.0"
      = .error (.assertionError "Only version 1.0 is supported.") := by
  refine ⟨((average_standard_across_references_spec calibratedStandards "en_US" "1.0").2.2
      (by decide) (by decide)).2 (by decide),
    (average_standard_across_references_spec calibratedStandards "fr_FR" "2.0").1 (by decide)⟩

/-- C1 counterexample: with the spec scenario's mixed-case keys, the claimed
case-insensitive matching rule matches both keys and yields the mean `7/10`,
but the code, which matches the lowercased locale against the unmodified keys,
finds no match and fails with `AssertionError("No reference values found")`. -/
theorem average_standard_case_sensitive_counterexample :
    ci_key_matches "en_US" "dfm_en_US_practice" = true
  ∧ claimed_locale_mean scenarioStandards "en_US" = 7/10
  ∧ Standards.average_standard_across_references scenarioStandards "en_US" "1.0"
      = .error (.assertionError "No reference values found") := by
  refine ⟨by decide, ?_, ?_⟩
  · have h : (scenarioStandards.reference_standards.filter
        fun kv => ci_key_matches "en_US" kv.1).map Prod.snd = [4/5, 3/5] := rfl
    simp only [claimed_locale_mean, h]
    norm_num
  · rw [avg_characterization]
    have h : matchedValues scenarioStandards "en_US" = [] := rfl
    have hmem : py_lower "en_US" ∈ LOCALES := by decide
    simp [h, hmem]

/-- C2 (amended): the scenario holds once the reference-standard keys are
lowercase, as the code's own standards file stores them: with
`{"dfm_en_us_practice": 0.8, "dfm_en_us_official": 0.6}`,
`average_standard_across_references("en_US", "1.0")` returns `0.7`. -/
theorem average_standard_en_us_scenario :
    Standards.average_standard_across_references calibratedStandards "en_US" "1.0"
      = .ok (7/10) := by
  rw [avg_characterization]
  have h : matchedValues calibratedStandards "en_US" = [4/5, 3/5] := rfl
  have hmem : py_lower "en_US" ∈ LOCALES := by decide
  simp [h, hmem]
  norm_num

/-- C2 counterexample: with the scenario's exact mixed-case keys
`{"dfm_en_US_practice": 0.8, "dfm_en_US_official": 0.6}`, the call does not
return `0.7`: it fails with `AssertionError("No reference values found")`,
because the lowercased locale `"en_us"` is not a substring of either key. -/
theorem average_standard_mixed_case_scenario_fails :
    Standards.average_standard_across_references scenarioStandards "en_US" "1.0"
      = .error (.assertionError "No reference values found")
  ∧ raisesValueError (Standards.average_standard_across_references scenarioStandards "en_US" "1.0")
      = false := by
  have h : Standards.average_standard_across_references scenarioStandards "en_US" "1.0"
      = .error (.assertionError "No reference values found") := by
    rw [avg_characterization]
    have hm : matchedValues scenarioStandards "en_US" = [] := rfl
    have hmem : py_lower "en_US" ∈ LOCALES := by decide
    simp [hm, hmem]
  exact ⟨h, by rw [h]; rfl⟩

/-- C10 (amended): an empty locale never reaches the filtering step: with
version `"1.0"` the call raises `ValueError("Locale is required for v1.0
scoring.")`, and with any other version the version assertion fails first
(an `AssertionError`, not a `ValueError`); in no case is the empty locale
treated as matching every key. -/
theorem empty_locale_never_scored (s : Standards) (version : String) :
    Standards.average_standard_across_references s "" version =
      (if version = "1.0" then .error (.valueError "Locale is required for v1.0 scoring.")
       else .error (.assertionError "Only version 1.0 is supported.")) := by
  rw [avg_characterization]
  by_cases h : version = "1.0" <;> simp [h]

/-! ## External data (`src/modelgauge/external_data.py`)

Effects are modelled per attempt: an environment function gives the outcome of
the `i`-th execution of a download body (attempts are numbered from 1, as
tenacity numbers them).  The filesystem is an association list from location to
content; a write conses the new entry. -/

/-- The local filesystem: newest write first. -/
abbrev FS := List (String × String)

/-- Writing `content` to `location`. -/
def fsWrite (fs : FS) (location content : String) : FS :=
  (location, content) :: fs

/-- Embeds `tenacity.retry(stop=stop_after_attempt(n), wait=wait_exponential(...),
reraise=True)` applied to a body whose `i`-th attempt yields `act i`: runs
attempts `i, i+1, ...` until one succeeds or `n` attempts (counted from the
first) are exhausted, then re-raises the last attempt's exception.  The waits
between attempts are real-time effects with no bearing on the returned value. -/
def retryFrom {α : Type} (act : Nat → Except PyErr α) : Nat → Nat → Except PyErr α
  | i, 0 => act i
  | i, 1 => act i
  | i, r + 2 =>
      match act i with
      | .ok a => .ok a
      | .error _ => retryFrom act (i + 1) (r + 1)

/-- Embeds `WebData`: external data downloaded with `urllib.request.urlretrieve`. -/
structure WebData where
  source_url : String

/-- Embeds `WebData.download`, decorated with
`retry(stop=stop_after_attempt(5), wait=wait_exponential(multiplier=1, min=1),
reraise=True)`.  `fetch i` abstracts the `i`-th `urlretrieve` attempt: the
downloaded content, or the exception it raised; on success the file at
`location` is written. -/
def WebData.download (d : WebData) (fetch : Nat → Except PyErr String)
    (fs : FS) (location : String) : Except PyErr Unit × FS :=
  match retryFrom fetch 1 5 with
  | .ok content => (.ok (), fsWrite fs location content)
  | .error e => (.error e, fs)

/-- Embeds `GDriveData`: a file inside a google drive folder, fetched with gdown. -/
structure GDriveData where
  data_source : String
  file_path : String

/-- One attempt of the `GDriveData.download` body: list the folder (`avail i`
is the listing seen by attempt `i`, as relative path / content pairs), download
the file whose path equals `file_path`, and raise `RuntimeError` when no listed
file matches. -/
def GDriveData.attempt (d : GDriveData) (avail : Nat → List (String × String))
    (i : Nat) : Except PyErr String :=
  match (avail i).lookup d.file_path with
  | some content => .ok content
  | none => .error (.runtimeError ("Cannot find file with name " ++ d.file_path
      ++ " in google drive folder " ++ d.data_source))

/-- Embeds `GDriveData.download`, decorated with
`retry(stop=stop_after_attempt(5), wait=wait_exponential(multiplier=3, min=15),
reraise=True)`. -/
def GDriveData.download (d : GDriveData) (avail : Nat → List (String × String))
    (fs : FS) (location : String) : Except PyErr Unit × FS :=
  match retryFrom (GDriveData.attempt d avail) 1 5 with
  | .ok content => (.ok (), fsWrite fs location content)
  | .error e => (.error e, fs)

/-- Embeds `LocalData`: a file already on the local machine, copied with
`shutil.copy`.  Its `download` carries no retry decorator: the body runs
exactly once.  `src i` is the content of `self.path` as the `i`-th attempt
would see it (only attempt 1 ever runs). -/
structure LocalData where
  path : String

/-- One attempt of the `LocalData.download` body: `shutil.copy(self.path,
location)`, raising `FileNotFoundError` when the source file is absent. -/
def LocalData.attempt (d : LocalData) (src : Nat → Option String) (location : String)
    (i : Nat) (fs : FS) : Except PyErr Unit × FS :=
  match src i with
  | some content => (.ok (), fsWrite fs location content)
  | none => (.error (.fileNotFoundError d.path), fs)

/-- Embeds `LocalData.download`: the single, unretried attempt. -/
def LocalData.download (d : LocalData) (src : Nat → Option String)
    (fs : FS) (location : String) : Except PyErr Unit × FS :=
  LocalData.attempt d src location 1 fs

/-- A secret object (`RequiredSecret` / `OptionalSecret`): its `.value` and the
serialized `.description()`. -/
structure Secret where
  value : Option String
  description : String

/-- Embeds `SecretWebData`: external data fetched with `requests.get` and a secret
header.  `secret = none` models a `None` secret object. -/
structure SecretWebData where
  source_url : String
  header : String
  secret : Option Secret

/-- Python falsiness of `self.secret.value`: `None` or the empty string. -/
def pyStrFalsy : Option String → Bool
  | none => true
  | some s => s = ""

/-- An HTTP response as `requests` exposes it. -/
structure HttpResponse where
  status_code : Nat
  content : String
  text : String

/-- Embeds `requests.Response.ok`: true exactly when `status_code < 400`. -/
def HttpResponse.ok (r : HttpResponse) : Bool := r.status_code < 400

/-- One attempt of the `SecretWebData.download` body, in source order: raise
`ValueError` when the header is empty, `ValueError` when the secret object is
missing, `MissingSecretValues` when the secret's value is falsy; then GET the
url and, if `response.ok`, write `response.content` to `location`, otherwise
raise `RuntimeError` carrying the status code and body. -/
def SecretWebData.download_once (d : SecretWebData) (resp : HttpResponse)
    (fs : FS) (location : String) : Except PyErr Unit × FS :=
  if d.header = "" then
    (.error (.valueError ("Secret data for " ++ d.source_url ++ " needs a header")), fs)
  else
    match d.secret with
    | none => (.error (.valueError ("Secret data for " ++ d.source_url ++ " needs a secret")), fs)
    | some secret =>
        if pyStrFalsy secret.value then
          (.error (.missingSecretValues [secret.description]), fs)
        else if resp.ok then
          (.ok (), fsWrite fs location resp.content)
        else
          (.error (.runtimeError ("failed to fetch " ++ d.source_url ++ ": "
              ++ toString resp.status_code ++ ": " ++ resp.text)), fs)

/-- The retry loop threading the filesystem through the attempts, mirroring
`retryFrom` for a stateful body. -/
def retryFromState (act : Nat → FS → Except PyErr Unit × FS) : Nat → Nat → FS → Except PyErr Unit × FS
  | i, 0, fs => act i fs
  | i, 1, fs => act i fs
  | i, r + 2, fs =>
      match act i fs with
      | (.ok a, fs') => (.ok a, fs')
      | (.error _, fs') => retryFromState act (i + 1) (r + 1) fs'

/-- Embeds `SecretWebData.download`, decorated with
`retry(stop=stop_after_attempt(5), wait=wait_exponential(multiplier=1, min=1),
reraise=True)`; `resps i` is the HTTP response the `i`-th attempt receives. -/
def SecretWebData.download (d : SecretWebData) (resps : Nat → HttpResponse)
    (fs : FS) (location : String) : Except PyErr Unit × FS :=
  retryFromState (fun i fs => SecretWebData.download_once d (resps i) fs location) 1 5 fs

theorem retryFrom_1_5_all_fail {α : Type} (act : Nat → Except PyErr α) (e : Nat → PyErr)
    (h : ∀ i, 1 ≤ i → i ≤ 5 → act i = .error (e i)) :
    retryFrom act 1 5 = .error (e 5) := by
  have h1 := h 1 (by omega) (by omega)
  have h2 := h 2 (by omega) (by omega)
  have h3 := h 3 (by omega) (by omega)
  have h4 := h 4 (by omega) (by omega)
  have h5 := h 5 (by omega) (by omega)
  simp [retryFrom, h1, h2, h3, h4, h5]

theorem retryFrom_1_5_succeeds {α : Type} (act : Nat → Except PyErr α) (k : Nat) (a : α)
    (hk1 : 1 ≤ k) (hk5 : k ≤ 5)
    (hfail : ∀ j, 1 ≤ j → j < k → ∃ ej, act j = .error ej)
    (hok : act k = .ok a) :
    retryFrom act 1 5 = .ok a := by
  interval_cases k
  · simp [retryFrom, hok]
  · obtain ⟨e1, h1⟩ := hfail 1 (by omega) (by omega)
    simp [retryFrom, h1, hok]
  · obtain ⟨e1, h1⟩ := hfail 1 (by omega) (by omega)
    obtain ⟨e2, h2⟩ := hfail 2 (by omega) (by omega)
    simp [retryFrom, h1, h2, hok]
  · obtain ⟨e1, h1⟩ := hfail 1 (by omega) (by omega)
    obtain ⟨e2, h2⟩ := hfail 2 (by omega) (by omega)
    obtain ⟨e3, h3⟩ := hfail 3 (by omega) (by omega)
    simp [retryFrom, h1, h2, h3, hok]
  · obtain ⟨e1, h1⟩ := hfail 1 (by omega) (by omega)
    obtain ⟨e2, h2⟩ := hfail 2 (by omega) (by omega)
    obtain ⟨e3, h3⟩ := hfail 3 (by omega) (by omega)
    obtain ⟨e4, h4⟩ := hfail 4 (by omega) (by omega)
    simp [retryFrom, h1, h2, h3, h4, hok]

theorem retryFrom_const {α : Type} (x : Except PyErr α) :
    ∀ r i, retryFrom (fun _ => x) i r = x := by
  intro r
  induction r using Nat.strong_induction_on with
  | _ r ih =>
    intro i
    match r with
    | 0 => rfl
    | 1 => rfl
    | r + 2 =>
        rw [retryFrom]
        cases x with
        | ok a => rfl
        | error e => exact ih (r + 1) (by omega) (i + 1)

/-- The functional content of one `SecretWebData.download` attempt: the content
to write, or the exception to raise. -/
def SecretWebData.outcome (d : SecretWebData) (resp : HttpResponse) : Except PyErr String :=
  if d.header = "" then
    .error (.valueError ("Secret data for " ++ d.source_url ++ " needs a header"))
  else
    match d.secret with
    | none => .error (.valueError ("Secret data for " ++ d.source_url ++ " needs a secret"))
    | some secret =>
        if pyStrFalsy secret.value then
          .error (.missingSecretValues [secret.description])
        else if resp.ok then .ok resp.content
        else
          .error (.runtimeError ("failed to fetch " ++ d.source_url ++ ": "
              ++ toString resp.status_code ++ ": " ++ resp.text))

theorem download_once_eq (d : SecretWebData) (resp : HttpResponse) (fs : FS) (location : String) :
    SecretWebData.download_once d resp fs location =
      match SecretWebData.outcome d resp with
      | .ok c => (.ok (), fsWrite fs location c)
      | .error e => (.error e, fs) := by
  unfold SecretWebData.download_once SecretWebData.outcome
  by_cases h1 : d.header = "" <;> simp [h1]
  cases hs : d.secret with
  | none => simp
  | some secret =>
      by_cases h2 : pyStrFalsy secret.value <;> simp [h2]
      by_cases h3 : resp.ok <;> simp [h3]

theorem retryFromState_eq (act : Nat → FS → Except PyErr Unit × FS)
    (f : Nat → Except PyErr String) (location : String)
    (hact : ∀ i fs, act i fs = match f i with
        | .ok c => (.ok (), fsWrite fs location c)
        | .error e => (.error e, fs)) :
    ∀ r i fs, retryFromState act i r fs = match retryFrom f i r with
      | .ok c => (.ok (), fsWrite fs location c)
      | .error e => (.error e, fs) := by
  intro r
  induction r using Nat.strong_induction_on with
  | _ r ih =>
    intro i fs
    match r with
    | 0 =>
        rw [retryFromState, retryFrom, hact]
    | 1 =>
        rw [retryFromState, retryFrom, hact]
    | r + 2 =>
        rw [retryFromState, retryFrom, hact]
        cases hf : f i with
        | ok c => simp
        | error e => simpa using ih (r + 1) (by omega) (i + 1) fs

theorem secret_download_eq (d : SecretWebData) (resps : Nat → HttpResponse)
    (fs : FS) (location : String) :
    SecretWebData.download d resps fs location =
      match retryFrom (fun i => SecretWebData.outcome d (resps i)) 1 5 with
      | .ok c => (.ok (), fsWrite fs location c)
      | .error e => (.error e, fs) :=
  retryFromState_eq _ _ location (fun i fs => download_once_eq d (resps i) fs location) 5 1 fs

theorem secret_outcome_ok (d : SecretWebData) (resp : HttpResponse) (c : String)
    (h : SecretWebData.outcome d resp = .ok c) :
    resp.ok = true ∧ c = resp.content := by
  unfold SecretWebData.outcome at h
  by_cases h1 : d.header = "" <;> simp [h1] at h
  cases hs : d.secret with
  | none => simp [hs] at h
  | some secret =>
      simp [hs] at h
      by_cases h2 : pyStrFalsy secret.value <;> simp [h2] at h
      by_cases h3 : resp.ok <;> simp [h3] at h
      exact ⟨h3, h.symm⟩

/-- C5 (amended): `WebData.download`, `GDriveData.download` and
`SecretWebData.download` are each wrapped in a bounded-backoff retry of up to 5
attempts with the last failure re-raised: they succeed whenever some attempt
`k ≤ 5` succeeds after failing earlier ones, and after five failed attempts the
fifth error propagates.  `LocalData.download`, however, is NOT retried: its
copy runs exactly once, and a failure of that single attempt propagates
immediately. -/
theorem download_retry_spec :
    (∀ (d : WebData) (fetch : Nat → Except PyErr String) (fs : FS) (location : String)
        (e : Nat → PyErr),
        (∀ i, 1 ≤ i → i ≤ 5 → fetch i = .error (e i)) →
        WebData.download d fetch fs location = (.error (e 5), fs))
  ∧ (∀ (d : WebData) (fetch : Nat → Except PyErr String) (fs : FS) (location : String)
        (k : Nat) (c : String),
        1 ≤ k → k ≤ 5 → (∀ j, 1 ≤ j → j < k → ∃ ej, fetch j = .error ej) →
        fetch k = .ok c →
        WebData.download d fetch fs location = (.ok (), fsWrite fs location c))
  ∧ (∀ (d : GDriveData) (avail : Nat → List (String × String)) (fs : FS) (location : String),
        (∀ i, 1 ≤ i → i ≤ 5 → ((avail i).lookup d.file_path) = none) →
        GDriveData.download d avail fs location
          = (.error (.runtimeError ("Cannot find file with name " ++ d.file_path
              ++ " in google drive folder " ++ d.data_source)), fs))
  ∧ (∀ (d : SecretWebData) (resps : Nat → HttpResponse) (fs : FS) (location : String)
        (k : Nat) (c : String),
        1 ≤ k → k ≤ 5 →
        (∀ j, 1 ≤ j → j < k → ∃ ej, SecretWebData.outcome d (resps j) = .error ej) →
        SecretWebData.outcome d (resps k) = .ok c →
        SecretWebData.download d resps fs location = (.ok (), fsWrite fs location c))
  ∧ (∀ (d : LocalData) (src src' : Nat → Option String) (fs : FS) (location : String),
        src 1 = src' 1 →
        LocalData.download d src fs location = LocalData.download d src' fs location)
  ∧ (∀ (d : LocalData) (src : Nat → Option String) (fs : FS) (location : String),
        src 1 = none →
        LocalData.download d src fs location = (.error (.fileNotFoundError d.path), fs)) := by
  refine ⟨?_, ?_, ?_, ?_, ?_, ?_⟩
  · intro d fetch fs location e h
    unfold WebData.download
    rw [retryFrom_1_5_all_fail fetch e h]
  · intro d fetch fs location k c hk1 hk5 hfail hok
    unfold WebData.download
    rw [retryFrom_1_5_succeeds fetch k c hk1 hk5 hfail hok]
  · intro d avail fs location h
    unfold GDriveData.download
    rw [retryFrom_1_5_all_fail (GDriveData.attempt d avail)
      (fun _ => .runtimeError ("Cannot find file with name " ++ d.file_path
        ++ " in google drive folder " ++ d.data_source))
      (fun i hi1 hi5 => by unfold GDriveData.attempt; rw [h i hi1 hi5])]
  · intro d resps fs location k c hk1 hk5 hfail hok
    rw [secret_download_eq]
    rw [retryFrom_1_5_succeeds (fun i => SecretWebData.outcome d (resps i)) k c hk1 hk5 hfail hok]
  · intro d src src' fs location h
    unfold LocalData.download LocalData.attempt
    rw [h]
  · intro d src fs location h
    unfold LocalData.download LocalData.attempt
    rw [h]

def flakySrc : Nat → Option String := fun i => if i = 1 then none else some "data"

/-- C5 counterexample: a source file whose read fails on the first attempt and
succeeds from the second on.  A body retried up to 5 attempts succeeds on it,
but `LocalData.download` fails outright: its download is not retried, so the
claim's "every ExternalData subclass" is false. -/
theorem local_data_download_not_retried :
    LocalData.download ⟨"/tmp/source"⟩ flakySrc [] "loc"
      = (.error (.fileNotFoundError "/tmp/source"), [])
  ∧ retryFromState (LocalData.attempt ⟨"/tmp/source"⟩ flakySrc "loc") 1 5 []
      = (.ok (), [("loc", "data")]) := ⟨rfl, rfl⟩

def alwaysFailFetch : Nat → Except PyErr String :=
  fun i => .error (.runtimeError ("boom " ++ toString i))

theorem download_retry_spec_witness :
    WebData.download ⟨"https://example.com/f"⟩ alwaysFailFetch [] "loc"
      = (.error (.runtimeError ("boom " ++ toString 5)), [])
  ∧ LocalData.download ⟨"/tmp/p"⟩ (fun _ => none) [] "loc"
      = (.error (.fileNotFoundError "/tmp/p"), []) :=
  ⟨download_retry_spec.1 ⟨"https://example.com/f"⟩ alwaysFailFetch [] "loc"
      (fun i => .runtimeError ("boom " ++ toString i)) (fun _ _ _ => rfl),
   download_retry_spec.2.2.2.2.2 ⟨"/tmp/p"⟩ (fun _ => none) [] "loc" rfl⟩

/-- C6 (amended): for a `SecretWebData` whose header and secret object are set,
`download(location)` raises `MissingSecretValues` when the secret's value is
absent; raises a `RuntimeError` carrying the HTTP status code when the response
is not ok; leaves the filesystem untouched on every error path; and writes the
response body to `location` exactly when the response is ok — where `ok` is
requests' `status_code < 400`, so a surfaced 3xx response counts as success,
not as an error (the claim's "non-2xx" is too strong). -/
theorem secret_web_data_download_spec (d : SecretWebData) (resp : HttpResponse)
    (fs : FS) (location : String) :
    (d.header ≠ "" → ∀ secret, d.secret = some secret → pyStrFalsy secret.value = true →
      SecretWebData.download d (fun _ => resp) fs location
        = (.error (.missingSecretValues [secret.description]), fs))
  ∧ (d.header ≠ "" → ∀ secret, d.secret = some secret → pyStrFalsy secret.value = false →
      resp.ok = false →
      SecretWebData.download d (fun _ => resp) fs location
        = (.error (.runtimeError ("failed to fetch " ++ d.source_url ++ ": "
            ++ toString resp.status_code ++ ": " ++ resp.text)), fs))
  ∧ (∀ e, (SecretWebData.download d (fun _ => resp) fs location).1 = .error e →
      (SecretWebData.download d (fun _ => resp) fs location).2 = fs)
  ∧ ((SecretWebData.download d (fun _ => resp) fs location).1 = .ok () →
      resp.ok = true
        ∧ (SecretWebData.download d (fun _ => resp) fs location).2
            = fsWrite fs location resp.content) := by
  have hdl : SecretWebData.download d (fun _ => resp) fs location =
      match SecretWebData.outcome d resp with
      | .ok c => (.ok (), fsWrite fs location c)
      | .error e => (.error e, fs) := by
    rw [secret_download_eq]
    rw [retryFrom_const (SecretWebData.outcome d resp) 5 1]
  refine ⟨?_, ?_, ?_, ?_⟩
  · intro hh secret hs hv
    rw [hdl]
    unfold SecretWebData.outcome
    simp [hh, hs, hv]
  · intro hh secret hs hv hok
    rw [hdl]
    unfold SecretWebData.outcome
    simp [hh, hs, hv, hok]
  · intro e he
    rw [hdl] at he ⊢
    cases h : SecretWebData.outcome d resp <;> simp [h] at he ⊢
  · intro hok
    rw [hdl] at hok ⊢
    cases h : SecretWebData.outcome d resp with
    | error e => simp [h] at hok
    | ok c =>
        obtain ⟨h1, h2⟩ := secret_outcome_ok d resp c h
        simp [h, h1, h2]

def secretEx : SecretWebData :=
  ⟨"https://example.com/data", "Authorization", some ⟨some "token", "example api key"⟩⟩

/-- C6 counterexample: a surfaced `300` response is not 2xx, yet the download
raises nothing and writes the body to `location`, because requests' `ok` is
`status_code < 400`. -/
theorem secret_web_data_writes_on_status_300 :
    SecretWebData.download secretEx (fun _ => ⟨300, "body", "body"⟩) [] "loc"
      = (.ok (), [("loc", "body")]) := rfl

theorem secret_web_data_download_spec_witness :
    SecretWebData.download ⟨"https://example.com/data", "Authorization",
        some ⟨none, "example api key"⟩⟩ (fun _ => ⟨200, "body", "body"⟩) [] "loc"
      = (.error (.missingSecretValues ["example api key"]), [])
  ∧ SecretWebData.download secretEx (fun _ => ⟨503, "err", "err"⟩) [] "loc"
      = (.error (.runtimeError ("failed to fetch " ++ secretEx.source_url ++ ": "
          ++ toString (503 : Nat) ++ ": " ++ "err")), []) :=
  ⟨(secret_web_data_download_spec ⟨"https://example.com/data", "Authorization",
        some ⟨none, "example api key"⟩⟩ ⟨200, "body", "body"⟩ [] "loc").1
      (by decide) ⟨none, "example api key"⟩ rfl rfl,
   (secret_web_data_download_spec secretEx ⟨503, "err", "err"⟩ [] "loc").2.1
      (by decide) ⟨some "token", "example api key"⟩ rfl rfl rfl⟩

/-! ## SUT adapters (`plugins/google/.../google_genai_client.py`,
`plugins/huggingface/.../huggingface_api.py`) -/

/-- A JSON-like value: vendor payloads, pydantic `model_dump` output, and
parsed response bodies. -/
inductive JVal where
  | null
  | bool (b : Bool)
  | num (q : ℚ)
  | str (s : String)
  | arr (items : List JVal)
  | obj (fields : List (String × JVal))

/-- Modelled from the spec: the Prompt options bag of `modelgauge.prompt` (the
module is not under `src/`): stop sequences, max tokens, temperature, top-p,
top-k, penalties; an unset option is `none`. -/
structure SUTOptions where
  stop_sequences : Option (List String)
  max_tokens : Option Nat
  temperature : Option ℚ
  top_p : Option ℚ
  top_k_per_token : Option Nat
  presence_penalty : Option ℚ
  frequency_penalty : Option ℚ

/-- Modelled from the spec: a text Prompt — immutable text plus the options
bag (`modelgauge.prompt`, not under `src/`). -/
structure TextPrompt where
  text : String
  options : SUTOptions

/-- Modelled from the spec: one normalized completion (`modelgauge.sut`, not
under `src/`). -/
structure SUTCompletion where
  text : String
deriving DecidableEq

/-- Modelled from the spec: the normalized completion list (`modelgauge.sut`,
not under `src/`). -/
structure SUTResponse where
  completions : List SUTCompletion
deriving DecidableEq

/-- Embeds `GoogleGenAiConfig`: generation config for Google Gen AI requests; every
field is optional with default `None`. -/
structure GoogleGenAiConfig where
  stop_sequences : Option (List String)
  max_output_tokens : Option Nat
  temperature : Option ℚ
  top_p : Option ℚ
  top_k : Option Nat
  presence_penalty : Option ℚ
  frequency_penalty : Option ℚ

/-- Embeds `GoogleGenAiRequest`: prompt text plus generation config. -/
structure GoogleGenAiRequest where
  contents : String
  generation_config : GoogleGenAiConfig

/-- Embeds `GoogleGenAiSUT.translate_text_prompt`: pure translation of the prompt's
options bag into the vendor config. -/
def GoogleGenAiSUT.translate_text_prompt (prompt : TextPrompt) : GoogleGenAiRequest :=
  { contents := prompt.text
    generation_config :=
      { stop_sequences := prompt.options.stop_sequences
        max_output_tokens := prompt.options.max_tokens
        temperature := prompt.options.temperature
        top_p := prompt.options.top_p
        top_k := prompt.options.top_k_per_token
        presence_penalty := prompt.options.presence_penalty
        frequency_penalty := prompt.options.frequency_penalty } }

/-- A field of a pydantic `model_dump(exclude_none=True)`: present exactly when
the value is set. -/
def optField (key : String) (v : Option JVal) : List (String × JVal) :=
  match v with
  | none => []
  | some j => [(key, j)]

/-- Embeds `GoogleGenAiConfig.model_dump(exclude_none=True)`: unset options are
omitted from the dumped dict entirely. -/
def GoogleGenAiConfig.model_dump_exclude_none (c : GoogleGenAiConfig) : List (String × JVal) :=
  optField "stop_sequences" (c.stop_sequences.map fun l => .arr (l.map .str))
  ++ optField "max_output_tokens" (c.max_output_tokens.map fun n => .num (n : ℚ))
  ++ optField "temperature" (c.temperature.map .num)
  ++ optField "top_p" (c.top_p.map .num)
  ++ optField "top_k" (c.top_k.map fun n => .num (n : ℚ))
  ++ optField "presence_penalty" (c.presence_penalty.map .num)
  ++ optField "frequency_penalty" (c.frequency_penalty.map .num)

/-- Embeds `GoogleGenAiRequest.model_dump(exclude_none=True)`: the payload `evaluate`
passes to `generate_content(**...)`. -/
def GoogleGenAiRequest.model_dump_exclude_none (r : GoogleGenAiRequest) : List (String × JVal) :=
  [("contents", .str r.contents),
   ("generation_config", .obj r.generation_config.model_dump_exclude_none)]

/-- Embeds `HuggingFaceChatParams`: both fields optional with default `None`. -/
structure HuggingFaceChatParams where
  max_new_tokens : Option Nat
  temperature : Option ℚ

/-- Embeds `HuggingFaceChatRequest`: inputs plus parameters. -/
structure HuggingFaceChatRequest where
  inputs : String
  parameters : HuggingFaceChatParams

/-- Embeds `HuggingFaceSUT.translate_text_prompt`. -/
def HuggingFaceSUT.translate_text_prompt (prompt : TextPrompt) : HuggingFaceChatRequest :=
  { inputs := prompt.text
    parameters :=
      { max_new_tokens := prompt.options.max_tokens
        temperature := prompt.options.temperature } }

/-- Embeds `HuggingFaceChatParams.model_dump(exclude_none=True)`. -/
def HuggingFaceChatParams.model_dump_exclude_none (p : HuggingFaceChatParams) : List (String × JVal) :=
  optField "max_new_tokens" (p.max_new_tokens.map fun n => .num (n : ℚ))
  ++ optField "temperature" (p.temperature.map .num)

/-- Embeds `HuggingFaceChatRequest.model_dump(exclude_none=True)`: the JSON payload
`evaluate` posts to the inference endpoint. -/
def HuggingFaceChatRequest.model_dump_exclude_none (r : HuggingFaceChatRequest) : List (String × JVal) :=
  [("inputs", .str r.inputs),
   ("parameters", .obj r.parameters.model_dump_exclude_none)]

/-- The option keys present in the `generation_config` part of the payload the
Google adapter's `evaluate` sends for `prompt`. -/
def googleOptionKeys (prompt : TextPrompt) : List String :=
  ((GoogleGenAiSUT.translate_text_prompt prompt).generation_config.model_dump_exclude_none).map
    Prod.fst

/-- The option keys present in the `parameters` part of the payload the
HuggingFace adapter's `evaluate` posts for `prompt`. -/
def hfOptionKeys (prompt : TextPrompt) : List String :=
  ((HuggingFaceSUT.translate_text_prompt prompt).parameters.model_dump_exclude_none).map
    Prod.fst

theorem mem_optField (s k : String) (v : Option JVal) :
    s ∈ (optField k v).map Prod.fst ↔ (s = k ∧ v ≠ none) := by
  cases v <;> simp [optField]

/-- C7 (confirmed): the payloads built by `evaluate` — Google's
`request.model_dump(exclude_none=True)` passed to `generate_content`, and
HuggingFace's posted JSON — contain a key for an option exactly when that
option is set in the prompt's options bag; unset options are omitted entirely,
not sent as nulls. -/
theorem unset_options_omitted_from_payload (prompt : TextPrompt) :
    ((GoogleGenAiSUT.translate_text_prompt prompt).model_dump_exclude_none).lookup
        "generation_config"
      = some (.obj ((GoogleGenAiSUT.translate_text_prompt
          prompt).generation_config.model_dump_exclude_none))
  ∧ (("stop_sequences" ∈ googleOptionKeys prompt) ↔ prompt.options.stop_sequences ≠ none)
  ∧ (("max_output_tokens" ∈ googleOptionKeys prompt) ↔ prompt.options.max_tokens ≠ none)
  ∧ (("temperature" ∈ googleOptionKeys prompt) ↔ prompt.options.temperature ≠ none)
  ∧ (("top_p" ∈ googleOptionKeys prompt) ↔ prompt.options.top_p ≠ none)
  ∧ (("top_k" ∈ googleOptionKeys prompt) ↔ prompt.options.top_k_per_token ≠ none)
  ∧ (("presence_penalty" ∈ googleOptionKeys prompt) ↔ prompt.options.presence_penalty ≠ none)
  ∧ (("frequency_penalty" ∈ googleOptionKeys prompt) ↔ prompt.options.frequency_penalty ≠ none)
  ∧ (("max_new_tokens" ∈ hfOptionKeys prompt) ↔ prompt.options.max_tokens ≠ none)
  ∧ (("temperature" ∈ hfOptionKeys prompt) ↔ prompt.options.temperature ≠ none) := by
  refine ⟨rfl, ?_, ?_, ?_, ?_, ?_, ?_, ?_, ?_, ?_⟩ <;>
  · simp only [googleOptionKeys, hfOptionKeys, GoogleGenAiSUT.translate_text_prompt,
      HuggingFaceSUT.translate_text_prompt, GoogleGenAiConfig.model_dump_exclude_none,
      HuggingFaceChatParams.model_dump_exclude_none, List.map_append, List.mem_append,
      mem_optField]
    simp [Option.ne_none_iff_exists']

theorem unset_options_omitted_witness :
    ("temperature" ∈ googleOptionKeys
        ⟨"hi", ⟨none, none, some (7/10), none, none, none, none⟩⟩)
  ∧ ¬ ("max_output_tokens" ∈ googleOptionKeys
        ⟨"hi", ⟨none, none, some (7/10), none, none, none, none⟩⟩) :=
  ⟨(unset_options_omitted_from_payload
      ⟨"hi", ⟨none, none, some (7/10), none, none, none, none⟩⟩).2.2.2.1.mpr (by simp),
   fun h => ((unset_options_omitted_from_payload
      ⟨"hi", ⟨none, none, some (7/10), none, none, none, none⟩⟩).2.2.1.mp h) rfl⟩

/-- Embeds `genai.GenerativeModel`: the lazily created client, determined by the
model name it was constructed with. -/
structure GenerativeModel where
  model_name : String
deriving DecidableEq

/-- The mutable state of a `GoogleGenAiSUT` instance: its uid, model name and
the lazily cached client (`self.model`, initially `None`). -/
structure GoogleGenAiSUTState where
  uid : String
  model_name : String
  model : Option GenerativeModel
deriving DecidableEq

/-- Embeds `GoogleGenAiSUT._load_client`: constructs `genai.GenerativeModel(self.model_name)`. -/
def GoogleGenAiSUT.load_client (s : GoogleGenAiSUTState) : GenerativeModel :=
  ⟨s.model_name⟩

/-- Embeds `GoogleGenAiResponse.Candidate`: a content dict and a finish reason. -/
structure Candidate where
  content : List (String × JVal)
  finish_reason : Int

/-- Embeds `GoogleGenAiResponse`: candidates plus usage metadata. -/
structure GoogleGenAiResponse where
  candidates : List Candidate
  usage_metadata : List (String × JVal)

/-- Embeds `GoogleGenAiSUT.evaluate`: lazily creates and caches the client on first
use, then calls it.  `gen` abstracts the network call
`model.generate_content(...)` (already converted to a `GoogleGenAiResponse`);
the returned state is the instance state after the call. -/
def GoogleGenAiSUT.evaluate (gen : GenerativeModel → GoogleGenAiRequest → GoogleGenAiResponse)
    (s : GoogleGenAiSUTState) (request : GoogleGenAiRequest) :
    GoogleGenAiSUTState × GoogleGenAiResponse :=
  match s.model with
  | none =>
      let m := GoogleGenAiSUT.load_client s
      ({ s with model := some m }, gen m request)
  | some m => (s, gen m request)

/-- C8 (confirmed): `GoogleGenAiSUT.evaluate` creates the client on the first
call (when `self.model is None`), caches it, reuses the cached client on every
later call, and mutates nothing but the client handle: `uid` and `model_name`
are unchanged, a state that already holds a client is left untouched, and a
second `evaluate` never changes the state again. -/
theorem google_evaluate_lazy_client_frame
    (gen : GenerativeModel → GoogleGenAiRequest → GoogleGenAiResponse)
    (s : GoogleGenAiSUTState) (request request' : GoogleGenAiRequest) :
    ((GoogleGenAiSUT.evaluate gen s request).1.uid = s.uid)
  ∧ ((GoogleGenAiSUT.evaluate gen s request).1.model_name = s.model_name)
  ∧ (s.model = none →
      (GoogleGenAiSUT.evaluate gen s request).1.model = some (GoogleGenAiSUT.load_client s))
  ∧ (∀ m, s.model = some m → (GoogleGenAiSUT.evaluate gen s request).1 = s)
  ∧ ((GoogleGenAiSUT.evaluate gen (GoogleGenAiSUT.evaluate gen s request).1 request').1
      = (GoogleGenAiSUT.evaluate gen s request).1) := by
  refine ⟨?_, ?_, ?_, ?_, ?_⟩ <;>
    cases h : s.model <;> simp [GoogleGenAiSUT.evaluate, h]

theorem google_evaluate_lazy_client_frame_witness :
    (GoogleGenAiSUT.evaluate (fun _ _ => ⟨[], []⟩)
        ⟨"google-sut", "gemini-1.5-flash", none⟩ ⟨"hi", ⟨none, none, none, none, none, none, none⟩⟩).1.model
      = some (GoogleGenAiSUT.load_client ⟨"google-sut", "gemini-1.5-flash", none⟩)
  ∧ (GoogleGenAiSUT.evaluate (fun _ _ => ⟨[], []⟩)
        ⟨"google-sut", "gemini-1.5-flash", some ⟨"gemini-1.5-flash"⟩⟩
        ⟨"hi", ⟨none, none, none, none, none, none, none⟩⟩).1
      = ⟨"google-sut", "gemini-1.5-flash", some ⟨"gemini-1.5-flash"⟩⟩ :=
  ⟨(google_evaluate_lazy_client_frame (fun _ _ => ⟨[], []⟩)
      ⟨"google-sut", "gemini-1.5-flash", none⟩
      ⟨"hi", ⟨none, none, none, none, none, none, none⟩⟩
      ⟨"hi", ⟨none, none, none, none, none, none, none⟩⟩).2.2.1 rfl,
   (google_evaluate_lazy_client_frame (fun _ _ => ⟨[], []⟩)
      ⟨"google-sut", "gemini-1.5-flash", some ⟨"gemini-1.5-flash"⟩⟩
      ⟨"hi", ⟨none, none, none, none, none, none, none⟩⟩
      ⟨"hi", ⟨none, none, none, none, none, none, none⟩⟩).2.2.2.1
      ⟨"gemini-1.5-flash"⟩ rfl⟩

/-- Python `dict[key]`: raises `KeyError` when the key is absent. -/
def dict_get (d : List (String × JVal)) (key : String) : Except PyErr JVal :=
  match d.lookup key with
  | some v => .ok v
  | none => .error (.keyError key)

/-- Python `list[0]`: raises `IndexError` on an empty list. -/
def index0 (l : List JVal) : Except PyErr JVal :=
  match l with
  | [] => .error (.indexError "list index out of range")
  | x :: _ => .ok x

/-- Indexing / key access on a `JVal` that is expected to be a list. -/
def as_arr : JVal → Except PyErr (List JVal)
  | .arr l => .ok l
  | _ => .error (.typeError "not subscriptable as a list")

/-- Key access on a `JVal` that is expected to be a dict. -/
def as_obj : JVal → Except PyErr (List (String × JVal))
  | .obj l => .ok l
  | _ => .error (.typeError "not subscriptable as a dict")

/-- A `JVal` expected to be a string. -/
def as_str : JVal → Except PyErr String
  | .str s => .ok s
  | _ => .error (.typeError "not a string")

/-- The Python loop `for x in xs: out.append(f(x))` over a fallible body:
stops at, and propagates, the first exception. -/
def mapExcept {α β : Type} (f : α → Except PyErr β) : List α → Except PyErr (List β)
  | [] => .ok []
  | x :: xs =>
      match f x with
      | .error e => .error e
      | .ok y =>
          match mapExcept f xs with
          | .error e => .error e
          | .ok ys => .ok (y :: ys)

/-- Extraction `candidate.content["parts"][0]["text"]` for one candidate: each missing
field or wrong shape raises. -/
def candidate_completion (c : Candidate) : Except PyErr SUTCompletion := do
  let parts ← dict_get c.content "parts"
  let partsArr ← as_arr parts
  let p0 ← index0 partsArr
  let p0obj ← as_obj p0
  let t ← dict_get p0obj "text"
  let s ← as_str t
  pure ⟨s⟩

/-- Embeds `GoogleGenAiSUT.translate_response`: builds one `SUTCompletion` per
candidate, propagating any extraction failure. -/
def GoogleGenAiSUT.translate_response (response : GoogleGenAiResponse) :
    Except PyErr SUTResponse :=
  match mapExcept candidate_completion response.candidates with
  | .error e => .error e
  | .ok completions => .ok ⟨completions⟩

/-- Embeds `HuggingFaceResponse`: the parsed body, pydantic-validated to carry a
`generated_text` string. -/
structure HuggingFaceResponse where
  generated_text : String
deriving DecidableEq

/-- Embeds `HuggingFaceSUT.translate_response`: always exactly one completion. -/
def HuggingFaceSUT.translate_response (response : HuggingFaceResponse) : SUTResponse :=
  ⟨[⟨response.generated_text⟩]⟩

theorem mapExcept_ok_length {α β : Type} (f : α → Except PyErr β) :
    ∀ (l : List α) (ys : List β), mapExcept f l = .ok ys → ys.length = l.length := by
  intro l
  induction l with
  | nil =>
      intro ys h
      simp [mapExcept] at h
      simp [← h]
  | cons x xs ih =>
      intro ys h
      rw [mapExcept] at h
      cases hf : f x with
      | error e => rw [hf] at h; cases h
      | ok y =>
          rw [hf] at h
          cases hm : mapExcept f xs with
          | error e => rw [hm] at h; cases h
          | ok zs =>
              rw [hm] at h
              cases h
              simp [ih zs hm]

/-- C4 (amended): a `SUTResponse` built by `translate_response` has one
completion per candidate — so it is non-empty whenever the vendor response has
at least one candidate — and a missing `parts` field in a candidate propagates
as a `KeyError` rather than defaulting to empty text; the HuggingFace
translation always returns exactly one completion.  However, a Google response
whose candidate list is empty yields an empty completions list without any
error being raised (see the counterexample), so the claim's unconditional
non-emptiness is false. -/
theorem translate_response_completions_spec :
    (∀ (response : GoogleGenAiResponse) (r : SUTResponse),
        GoogleGenAiSUT.translate_response response = .ok r →
        r.completions.length = response.candidates.length)
  ∧ (∀ (response : GoogleGenAiResponse) (r : SUTResponse),
        response.candidates ≠ [] →
        GoogleGenAiSUT.translate_response response = .ok r →
        r.completions ≠ [])
  ∧ (∀ (c : Candidate) (rest : List Candidate) (usage : List (String × JVal)),
        c.content.lookup "parts" = none →
        GoogleGenAiSUT.translate_response ⟨c :: rest, usage⟩ = .error (.keyError "parts"))
  ∧ (∀ (response : HuggingFaceResponse),
        HuggingFaceSUT.translate_response response = ⟨[⟨response.generated_text⟩]⟩) := by
  have key : ∀ (response : GoogleGenAiResponse) (r : SUTResponse),
      GoogleGenAiSUT.translate_response response = .ok r →
      r.completions.length = response.candidates.length := by
    intro response r h
    unfold GoogleGenAiSUT.translate_response at h
    cases hm : mapExcept candidate_completion response.candidates with
    | error e => rw [hm] at h; cases h
    | ok ys =>
        rw [hm] at h
        cases h
        simpa using mapExcept_ok_length candidate_completion response.candidates ys hm
  refine ⟨key, ?_, ?_, ?_⟩
  · intro response r hne h
    have hl : r.completions.length = response.candidates.length := key response r h
    intro hempty
    apply hne
    have : response.candidates.length = 0 := by
      rw [← hl, hempty]
      rfl
    exact List.length_eq_zero.mp this
  · intro c rest usage h
    unfold GoogleGenAiSUT.translate_response
    have hc : candidate_completion c = .error (.keyError "parts") := by
      unfold candidate_completion dict_get
      rw [h]
      rfl
    simp [mapExcept, hc]
  · intro response
    rfl

/-- C4 counterexample: a Google response with zero candidates translates to an
empty completions list, with no exception raised. -/
theorem google_translate_response_empty_candidates :
    GoogleGenAiSUT.translate_response ⟨[], []⟩ = .ok ⟨[]⟩ := rfl

def candidateEx : Candidate :=
  ⟨[("parts", .arr [.obj [("text", .str "hello")]])], 0⟩

theorem translate_response_completions_witness :
    GoogleGenAiSUT.translate_response ⟨[candidateEx], []⟩ = .ok ⟨[⟨"hello"⟩]⟩
  ∧ (SUTResponse.mk [⟨"hello"⟩]).completions ≠ []
  ∧ GoogleGenAiSUT.translate_response ⟨[⟨[], 0⟩], []⟩ = .error (.keyError "parts") :=
  ⟨rfl,
   (translate_response_completions_spec.2.1 ⟨[candidateEx], []⟩ ⟨[⟨"hello"⟩]⟩
      (by simp) rfl),
   (translate_response_completions_spec.2.2.1 ⟨[], 0⟩ [] [] rfl)⟩

/-- The HTTP response `requests.post` hands back to the HuggingFace adapter:
the status code and the result of `response.json()`. -/
structure HfHttpResponse where
  status_code : Nat
  body : Except PyErr JVal

/-- Embeds `requests.Response.raise_for_status()`: raises `HTTPError` exactly for
status codes in [400, 600); a no-op for every other status. -/
def raise_for_status (status : Nat) : Except PyErr Unit :=
  if 400 ≤ status ∧ status < 600 then .error (.httpError status) else .ok ()

/-- Embeds `HuggingFaceSUT.evaluate` after the POST: `if status != 200:
raise_for_status()`, then `response.json()[0]` is parsed into a
`HuggingFaceResponse`.  The `except` block prints and re-raises, so every
exception propagates unchanged. -/
def HuggingFaceSUT.evaluate (resp : HfHttpResponse) : Except PyErr HuggingFaceResponse := do
  if resp.status_code ≠ 200 then raise_for_status resp.status_code
  let j ← resp.body
  let arr ← as_arr j
  let first ← index0 arr
  let fields ← as_obj first
  let gt ← dict_get fields "generated_text"
  let s ← as_str gt
  pure ⟨s⟩

def hfOkBody : JVal := .arr [.obj [("generated_text", .str "hello")]]

/-- C9 (code bug): the guard `if response.status_code != 200:
response.raise_for_status()` is intended to raise on every non-200 status, but
`raise_for_status` only raises for status >= 400: a 201 response with a
parseable body slips through and a `HuggingFaceResponse` is constructed from a
non-200 request, contradicting the spec's "must raise a distinguishable error
on non-success HTTP/API status".  Statuses >= 400 do raise, and 200 succeeds. -/
theorem huggingface_evaluate_status_code_bug :
    HuggingFaceSUT.evaluate ⟨201, .ok hfOkBody⟩ = .ok ⟨"hello"⟩
  ∧ HuggingFaceSUT.evaluate ⟨503, .ok hfOkBody⟩ = .error (.httpError 503)
  ∧ HuggingFaceSUT.evaluate ⟨200, .ok hfOkBody⟩ = .ok ⟨"hello"⟩ := by
  refine ⟨?_, ?_, ?_⟩ <;> rfl

/-- C10 counterexample: for version `"2.0"` the empty-locale call raises the
version `AssertionError`, not a `ValueError`, so the claim's "for every version
argument ... raises a ValueError" is false. -/
theorem empty_locale_assertion_error_on_bad_version :
    Standards.average_standard_across_references ⟨[("dfm_en_us_practice", 4/5)]⟩ "" "2.0"
      = .error (.assertionError "Only version 1.0 is supported.")
  ∧ raisesValueError
      (Standards.average_standard_across_references ⟨[("dfm_en_us_practice", 4/5)]⟩ "" "2.0")
      = false := by
  have h : Standards.average_standard_across_references ⟨[("dfm_en_us_practice", 4/5)]⟩ "" "2.0"
      = .error (.assertionError "Only version 1.0 is supported.") := by
    rw [avg_characterization]
    simp
  exact ⟨h, by rw [h]; rfl⟩

end Modelbench
